import Mathlib

/-!
# Verification of the Fantrove Console API worker

Shallow embedding of the two Cloudflare-worker variants found in the
repository: `src/worker.js` (namespace `W`) and `src/unnamed/part_000`
(namespace `P0`).  Both receive console-log entries over HTTP and relay
them to a Supabase REST backend.

Modelling conventions:
* The JSON body of a request is modelled pre-parsed: the `POST /logs` body
  as a `LogInput`, the `logs` field of the `POST /logs/batch` body as a
  `LogsField` (absent / present-but-not-an-array / an array of entries).
* Query-string integers are modelled as the result of JavaScript
  `parseInt`: `none` stands for an absent parameter or one that parses to
  `NaN`, `some v` for a successful parse.
* The backend is an oracle (`Backend`): a function from the outbound GET
  url to a response, a function from the outbound insert payload to a
  response, and a settled outcome for the i-th concurrent batch insert.
* Clock: `now` is the current time in milliseconds since the epoch
  (`Date.now()`); the ISO rendering used for the health timestamp is
  modelled as `toString now` (the rendering plays no role in any claim).
* Field values are `Option String`; JavaScript falsiness of such a field
  (`undefined`, `null` or `""`) is `falsy`.
-/

/-- JavaScript falsiness of an optional string field: absent or empty. -/
def falsy (v : Option String) : Bool :=
  match v with
  | none => true
  | some s => s = ""

/-- `v || d` for an optional string `v` and a string default `d`. -/
def jsOr (v : Option String) (d : String) : String :=
  match v with
  | none => d
  | some s => if s = "" then d else s

/-- `v || d` where the default is itself optional
(`log.user_agent || headers.get(..)`: the header may be absent too). -/
def jsOrOpt (v : Option String) (d : Option String) : Option String :=
  match v with
  | none => d
  | some s => if s = "" then d else some s

/-- `parseInt(p) || d`: `NaN` (here `none`) and `0` fall back to `d`. -/
def jsOrInt (p : Option Int) (d : Int) : Int :=
  match p with
  | none => d
  | some v => if v = 0 then d else v

/-- Effective read limit, `Math.min(parseInt(limit) || 100, 500)`
(line 53 of `src/worker.js`, line 56 of `src/unnamed/part_000`). -/
def effLimit (p : Option Int) : Int :=
  min (jsOrInt p 100) 500

/-- Upper-case hexadecimal digit for `n < 16`. -/
def hexDigit (n : Nat) : Char :=
  if n < 10 then Char.ofNat (48 + n) else Char.ofNat (55 + n)

/-- UTF-8 bytes of a character, as numbers below 256. -/
def utf8Bytes (c : Char) : List Nat :=
  let n := c.toNat
  if n < 128 then [n]
  else if n < 2048 then [192 + n / 64, 128 + n % 64]
  else if n < 65536 then [224 + n / 4096, 128 + (n / 64) % 64, 128 + n % 64]
  else [240 + n / 262144, 128 + (n / 4096) % 64, 128 + (n / 64) % 64, 128 + n % 64]

/-- `%XX` escape of one byte. -/
def percentByte (b : Nat) : String :=
  String.mk [Char.ofNat 37, hexDigit (b / 16), hexDigit (b % 16)]

/-- The characters `encodeURIComponent` leaves unescaped:
letters, digits, the apostrophe and `- _ . ! ~ * ( )`. -/
def uriUnreserved (c : Char) : Bool :=
  (65 ≤ c.toNat && c.toNat ≤ 90) || (97 ≤ c.toNat && c.toNat ≤ 122) ||
  (48 ≤ c.toNat && c.toNat ≤ 57) ||
  c = '-' || c = '_' || c = '.' || c = '!' || c = '~' || c = '*' ||
  c = Char.ofNat 39 || c = '(' || c = ')'

/-- JavaScript `encodeURIComponent`: percent-encodes the UTF-8 bytes of
every character outside the unreserved set. -/
def encodeURIComponent (s : String) : String :=
  String.join (s.toList.map fun c =>
    if uriUnreserved c then String.singleton c
    else String.join ((utf8Bytes c).map percentByte))

/-- Substring test on the underlying character lists (used to state that a
string does or does not mention a query key). -/
def strContains (s pat : String) : Bool :=
  go pat.toList s.toList
where
  go (p : List Char) : List Char → Bool
    | [] => p.isEmpty
    | c :: cs => p.isPrefixOf (c :: cs) || go p cs

/-- The two configuration secrets injected by the hosting environment. -/
structure Env where
  SUPABASE_URL : String
  SUPABASE_ANON_KEY : String

/-- The inbound request headers the handlers read. -/
structure ReqHeaders where
  userAgent : Option String
  referer : Option String

/-- A JSON value (only the shapes the worker builds or relays). -/
inductive Json where
  | nul
  | bool (b : Bool)
  | num (n : Nat)
  | str (s : String)
  | arr (xs : List Json)
  | obj (fields : List (String × Json))

/-- One client-supplied log entry, as parsed from the JSON body.  Every
field is optional; `expires_at` is what the client may try to supply (the
code never reads it). -/
structure LogInput where
  session_id : Option String := none
  level : Option String := none
  category : Option String := none
  message : Option String := none
  source : Option String := none
  meta : Option Json := none
  stack_trace : Option String := none
  user_agent : Option String := none
  url : Option String := none
  expires_at : Option String := none

/-- The normalized payload sent to the backend insert endpoint
(lines 84-95 / 142-153 of `src/worker.js`). -/
structure Payload where
  session_id : String
  level : Option String
  category : String
  message : Option String
  source : String
  meta : Json
  stack_trace : Option String
  user_agent : Option String
  url : Option String
  expires_at : Nat

/-- `log.meta || {}`: an absent meta (or a falsy JSON value) becomes the
empty object. -/
def jsTruthyJson (j : Json) : Bool :=
  match j with
  | .nul => false
  | .bool b => b
  | .num n => n != 0
  | .str s => s ≠ ""
  | .arr _ => true
  | .obj _ => true

/-- `v || {}` for the `meta` field. -/
def jsOrJson (v : Option Json) : Json :=
  match v with
  | none => Json.obj []
  | some j => if jsTruthyJson j then j else Json.obj []

/-- The payload construction shared verbatim by `handlePostLog` and
`insertSingleLog` in both variants: defaulting rules plus the
server-computed expiry `Date.now() + 30*24*60*60*1000`. -/
def buildPayload (now : Nat) (hdrs : ReqHeaders) (log : LogInput) : Payload :=
  { session_id := jsOr log.session_id "unknown"
    level := log.level
    category := jsOr log.category "system"
    message := log.message
    source := jsOr log.source "Unknown"
    meta := jsOrJson log.meta
    stack_trace := log.stack_trace
    user_agent := jsOrOpt log.user_agent hdrs.userAgent
    url := jsOrOpt log.url hdrs.referer
    expires_at := now + 30 * 24 * 60 * 60 * 1000 }

/-- A response body: JSON, plain text, or empty (preflight). -/
inductive Body where
  | empty
  | text (s : String)
  | json (j : Json)

/-- An HTTP response as the worker constructs it. -/
structure Resp where
  status : Nat
  headers : List (String × String)
  body : Body

/-- An outbound call to the backend: a read of `url`, or an insert of
`payload` at `url` (`minimal` is true when `Prefer: return=minimal` is
sent, i.e. for batch entries). -/
inductive Outbound where
  | get (url : String)
  | post (url : String) (minimal : Bool) (payload : Payload)

/-- Backend response to the read query. -/
structure GetResp where
  ok : Bool
  status : Nat
  text : String
  json : Json

/-- Backend response to the single-write insert
(`first` is `result[0]` of the returned representation). -/
structure PostResp where
  ok : Bool
  status : Nat
  text : String
  first : Json

/-- The backend oracle: responses to the read and single-insert calls, and
the settled outcome (fulfilled / rejected) of the i-th concurrent batch
insert. -/
structure Backend where
  onGet : String → GetResp
  onPost : Payload → PostResp
  batchOk : Nat → Bool

/-- The `logs` field of a batch body: absent (or otherwise falsy),
present but not an array, or an array of entries. -/
inductive LogsField where
  | absent
  | nonArray
  | arr (xs : List LogInput)

/-- An inbound request, with its JSON body pre-parsed into the pieces the
handlers read. -/
structure Request where
  method : String
  path : String
  headers : ReqHeaders
  session : Option String := none
  limitParam : Option Int := none
  offsetParam : Option Int := none
  logBody : LogInput := {}
  batchBody : LogsField := .absent

/-- Settled outcomes of the `n` concurrent batch inserts
(`Promise.allSettled` over `logs.map(insertSingleLog)`). -/
def outcomes (backend : Backend) (n : Nat) : List Bool :=
  (List.range n).map backend.batchOk

/-- `results.filter(r => r.status === "fulfilled").length`. -/
def savedCount (backend : Backend) (n : Nat) : Nat :=
  ((outcomes backend n).filter (fun b => b)).length

/-- `results.filter(r => r.status === "rejected").length`. -/
def failedCount (backend : Backend) (n : Nat) : Nat :=
  ((outcomes backend n).filter (fun b => !b)).length

namespace W

/-- `src/worker.js` lines 5-10: the CORS header set, including a preflight
cache lifetime. -/
def CORS_HEADERS : List (String × String) :=
  [("Access-Control-Allow-Origin", "*"),
   ("Access-Control-Allow-Methods", "GET, POST, OPTIONS"),
   ("Access-Control-Allow-Headers", "Content-Type, Authorization"),
   ("Access-Control-Max-Age", "86400")]

/-- `src/worker.js` lines 173-181: JSON response with CORS headers. -/
def jsonResponse (data : Json) (status : Nat) : Resp :=
  { status := status
    headers := ("Content-Type", "application/json") :: CORS_HEADERS
    body := .json data }

/-- The backend read query `handleGetLogs` builds (lines 53-59): no
`offset` is ever emitted in this variant. -/
def getQuery (env : Env) (req : Request) : String :=
  let base := env.SUPABASE_URL ++
    "/rest/v1/console_logs?select=*&order=created_at.desc&limit=" ++
    toString (effLimit req.limitParam)
  match req.session with
  | none => base
  | some s => if s = "" then base
              else base ++ "&session_id=eq." ++ encodeURIComponent s

/-- `src/worker.js` lines 50-75. -/
def handleGetLogs (env : Env) (backend : Backend) (req : Request) :
    Except String Resp × List Outbound :=
  let query := getQuery env req
  let r := backend.onGet query
  if r.ok then (.ok (jsonResponse r.json 200), [.get query])
  else (.error ("Supabase error: " ++ toString r.status), [.get query])

/-- The insert endpoint url. -/
def insertUrl (env : Env) : String :=
  env.SUPABASE_URL ++ "/rest/v1/console_logs"

/-- `src/worker.js` lines 77-115. -/
def handlePostLog (env : Env) (now : Nat) (backend : Backend)
    (req : Request) : Except String Resp × List Outbound :=
  let body := req.logBody
  if falsy body.level || falsy body.message then
    (.ok (jsonResponse (.obj [("error", .str "Missing required fields")]) 400), [])
  else
    let payload := buildPayload now req.headers body
    let r := backend.onPost payload
    if r.ok then
      (.ok (jsonResponse (.obj [("success", .bool true), ("data", r.first)]) 201),
       [.post (insertUrl env) false payload])
    else
      (.error ("Supabase insert error: " ++ toString r.status ++ " " ++ r.text),
       [.post (insertUrl env) false payload])

/-- `src/worker.js` lines 117-139: note that an empty `logs` array passes
the guard (`[]` is truthy and is an array). -/
def handlePostBatch (env : Env) (now : Nat) (backend : Backend)
    (req : Request) : Except String Resp × List Outbound :=
  match req.batchBody with
  | .absent =>
    (.ok (jsonResponse (.obj [("error", .str "Invalid logs array")]) 400), [])
  | .nonArray =>
    (.ok (jsonResponse (.obj [("error", .str "Invalid logs array")]) 400), [])
  | .arr xs =>
    let taken := xs.take 100
    let calls := taken.map fun log =>
      Outbound.post (insertUrl env) true (buildPayload now req.headers log)
    (.ok (jsonResponse (.obj
        [("success", .bool true),
         ("total", .num taken.length),
         ("saved", .num (savedCount backend taken.length)),
         ("failed", .num (failedCount backend taken.length))]) 201),
     calls)

/-- The top-level `try`/`catch` of `fetch`: an error becomes a 500 JSON
response. -/
def handleCatch : Except String Resp × List Outbound → Resp × List Outbound
  | (.ok r, calls) => (r, calls)
  | (.error msg, calls) =>
    (jsonResponse (.obj [("error", .str msg)]) 500, calls)

/-- `src/worker.js` lines 12-47: preflight short-circuit, then the
`switch (true)` dispatch.  The `/health` case tests the path only, so any
non-OPTIONS method reaches it. -/
def fetch (env : Env) (now : Nat) (backend : Backend) (req : Request) :
    Resp × List Outbound :=
  if req.method = "OPTIONS" then
    ({ status := 204, headers := CORS_HEADERS, body := .empty }, [])
  else if req.path = "/health" then
    (jsonResponse (.obj [("status", .str "ok"), ("timestamp", .str (toString now))]) 200, [])
  else if req.method = "GET" && req.path = "/logs" then
    handleCatch (handleGetLogs env backend req)
  else if req.method = "POST" && req.path = "/logs" then
    handleCatch (handlePostLog env now backend req)
  else if req.method = "POST" && req.path = "/logs/batch" then
    handleCatch (handlePostBatch env now backend req)
  else
    ({ status := 404, headers := CORS_HEADERS, body := .text "Not Found" }, [])

end W

namespace P0

/-- `src/unnamed/part_000` lines 8-12: the CORS header set of this
variant has no `Access-Control-Max-Age` entry. -/
def CORS_HEADERS : List (String × String) :=
  [("Access-Control-Allow-Origin", "*"),
   ("Access-Control-Allow-Methods", "GET, POST, OPTIONS"),
   ("Access-Control-Allow-Headers", "Content-Type, Authorization")]

/-- `src/unnamed/part_000` lines 184-192. -/
def jsonResponse (data : Json) (status : Nat) : Resp :=
  { status := status
    headers := ("Content-Type", "application/json") :: CORS_HEADERS
    body := .json data }

/-- The backend read query of this variant (lines 56-63): limit is
followed by `offset` (`parseInt(offset) || 0`). -/
def getQuery (env : Env) (req : Request) : String :=
  let base := env.SUPABASE_URL ++
    "/rest/v1/console_logs?select=*&order=created_at.desc&limit=" ++
    toString (effLimit req.limitParam) ++
    "&offset=" ++ toString (jsOrInt req.offsetParam 0)
  match req.session with
  | none => base
  | some s => if s = "" then base
              else base ++ "&session_id=eq." ++ encodeURIComponent s

/-- `src/unnamed/part_000` lines 53-79 (the relay error message also
carries the backend body text in this variant). -/
def handleGetLogs (env : Env) (backend : Backend) (req : Request) :
    Except String Resp × List Outbound :=
  let query := getQuery env req
  let r := backend.onGet query
  if r.ok then (.ok (jsonResponse r.json 200), [.get query])
  else (.error ("Supabase error: " ++ toString r.status ++ " " ++ r.text), [.get query])

/-- The insert endpoint url. -/
def insertUrl (env : Env) : String :=
  env.SUPABASE_URL ++ "/rest/v1/console_logs"

/-- `src/unnamed/part_000` lines 81-120. -/
def handlePostLog (env : Env) (now : Nat) (backend : Backend)
    (req : Request) : Except String Resp × List Outbound :=
  let body := req.logBody
  if falsy body.level || falsy body.message then
    (.ok (jsonResponse (.obj
      [("error", .str "Missing required fields: level, message")]) 400), [])
  else
    let payload := buildPayload now req.headers body
    let r := backend.onPost payload
    if r.ok then
      (.ok (jsonResponse (.obj [("success", .bool true), ("data", r.first)]) 201),
       [.post (insertUrl env) false payload])
    else
      (.error ("Supabase insert error: " ++ toString r.status ++ " " ++ r.text),
       [.post (insertUrl env) false payload])

/-- `src/unnamed/part_000` lines 122-145: this stricter variant also
rejects an empty `logs` array (`body.logs.length === 0`). -/
def handlePostBatch (env : Env) (now : Nat) (backend : Backend)
    (req : Request) : Except String Resp × List Outbound :=
  match req.batchBody with
  | .absent =>
    (.ok (jsonResponse (.obj [("error", .str "Missing or invalid logs array")]) 400), [])
  | .nonArray =>
    (.ok (jsonResponse (.obj [("error", .str "Missing or invalid logs array")]) 400), [])
  | .arr xs =>
    if xs.isEmpty then
      (.ok (jsonResponse (.obj [("error", .str "Missing or invalid logs array")]) 400), [])
    else
      let taken := xs.take 100
      let calls := taken.map fun log =>
        Outbound.post (insertUrl env) true (buildPayload now req.headers log)
      (.ok (jsonResponse (.obj
          [("success", .bool true),
           ("total", .num taken.length),
           ("saved", .num (savedCount backend taken.length)),
           ("failed", .num (failedCount backend taken.length))]) 201),
       calls)

/-- The top-level `try`/`catch` of `fetch`. -/
def handleCatch : Except String Resp × List Outbound → Resp × List Outbound
  | (.ok r, calls) => (r, calls)
  | (.error msg, calls) =>
    (jsonResponse (.obj [("error", .str msg)]) 500, calls)

/-- `src/unnamed/part_000` lines 14-47: preflight returns the default
status 200; `/health` requires method GET in this variant. -/
def fetch (env : Env) (now : Nat) (backend : Backend) (req : Request) :
    Resp × List Outbound :=
  if req.method = "OPTIONS" then
    ({ status := 200, headers := CORS_HEADERS, body := .empty }, [])
  else if req.method = "GET" && req.path = "/logs" then
    handleCatch (handleGetLogs env backend req)
  else if req.method = "POST" && req.path = "/logs" then
    handleCatch (handlePostLog env now backend req)
  else if req.method = "POST" && req.path = "/logs/batch" then
    handleCatch (handlePostBatch env now backend req)
  else if req.method = "GET" && req.path = "/health" then
    (jsonResponse (.obj [("status", .str "ok"), ("timestamp", .str (toString now))]) 200, [])
  else
    ({ status := 404, headers := CORS_HEADERS, body := .text "Not Found" }, [])

end P0

section Defaults

/-- A concrete environment for witnesses and counterexamples. -/
def env0 : Env := ⟨"https://example.supabase.co", "ANON"⟩

/-- Concrete request headers. -/
def hdrs0 : ReqHeaders := ⟨some "UA/1.0", some "https://ref.example"⟩

/-- A backend that accepts everything. -/
def backendOkAll : Backend :=
  ⟨fun _ => ⟨true, 200, "", .arr []⟩,
   fun _ => ⟨true, 201, "", .obj []⟩,
   fun _ => true⟩

/-- A backend that rejects everything with status 503. -/
def backendFail : Backend :=
  ⟨fun _ => ⟨false, 503, "down", .nul⟩,
   fun _ => ⟨false, 503, "down", .nul⟩,
   fun _ => false⟩

end Defaults

/-- A request with every component explicit. -/
def mkReq (m p : String) (hdrs : ReqHeaders) (sess : Option String)
    (lim off : Option Int) (lb : LogInput) (bb : LogsField) : Request :=
  ⟨m, p, hdrs, sess, lim, off, lb, bb⟩

section Lemmas

/-- Splitting a boolean list by value partitions its length. -/
theorem filter_length_add (l : List Bool) :
    (l.filter (fun b => b)).length + (l.filter (fun b => !b)).length = l.length := by
  induction l with
  | nil => rfl
  | cons b t ih => cases b <;> simp [List.filter] <;> omega

/-- Fulfilled and rejected outcomes of `n` settled inserts add up to `n`. -/
theorem saved_add_failed (backend : Backend) (n : Nat) :
    savedCount backend n + failedCount backend n = n := by
  unfold savedCount failedCount outcomes
  rw [filter_length_add, List.length_map, List.length_range]

end Lemmas

/-- C1 counterexample: the claim asserts that a batch body whose `logs`
field is an array of N entries always yields status 201 with
`total = min(N, 100)`; in `src/unnamed/part_000` the empty array (N = 0)
is rejected with status 400 instead. -/
theorem C1_cex :
    (P0.fetch env0 0 backendOkAll
      (mkReq "POST" "/logs/batch" hdrs0 none none none {} (.arr []))).1.status = 400 ∧
    ¬ (P0.fetch env0 0 backendOkAll
      (mkReq "POST" "/logs/batch" hdrs0 none none none {} (.arr []))).1.status = 201 := by
  decide

/-- C1 (amended): for a batch request whose `logs` field is an array
`xs`, exactly the first `min (xs.length) 100` entries are attempted, and
the response is 201 with body `{success: true, total, saved, failed}`
where `total = min (xs.length) 100` and `saved + failed = total`, for any
pattern of per-entry backend outcomes — in `src/worker.js` for every
`xs`, and in `src/unnamed/part_000` for every non-empty `xs` (the empty
array is rejected there, see the counterexample). -/
theorem C1_batch_counts (env : Env) (now : Nat) (backend : Backend)
    (req : Request) (xs : List LogInput)
    (hm : req.method = "POST") (hp : req.path = "/logs/batch")
    (hb : req.batchBody = .arr xs) :
    ((W.fetch env now backend req).2 =
      (xs.take 100).map (fun log =>
        Outbound.post (W.insertUrl env) true (buildPayload now req.headers log)) ∧
     (W.fetch env now backend req).1.status = 201 ∧
     (W.fetch env now backend req).1.body = .json (.obj
       [("success", .bool true),
        ("total", .num (min xs.length 100)),
        ("saved", .num (savedCount backend (min xs.length 100))),
        ("failed", .num (failedCount backend (min xs.length 100)))]) ∧
     savedCount backend (min xs.length 100) + failedCount backend (min xs.length 100)
       = min xs.length 100) ∧
    (xs ≠ [] →
     ((P0.fetch env now backend req).2 =
       (xs.take 100).map (fun log =>
         Outbound.post (P0.insertUrl env) true (buildPayload now req.headers log)) ∧
      (P0.fetch env now backend req).1.status = 201 ∧
      (P0.fetch env now backend req).1.body = .json (.obj
        [("success", .bool true),
         ("total", .num (min xs.length 100)),
         ("saved", .num (savedCount backend (min xs.length 100))),
         ("failed", .num (failedCount backend (min xs.length 100)))]))) := by
  obtain ⟨m, p, h, s, l, o, lb, bb⟩ := req
  simp only at hm hp hb
  subst hm hp hb
  constructor
  · simp [W.fetch, W.handleCatch, W.handlePostBatch, W.jsonResponse,
      List.length_take, Nat.min_comm, saved_add_failed]
  · intro hne
    cases xs with
    | nil => exact absurd rfl hne
    | cons a t =>
      simp [P0.fetch, P0.handleCatch, P0.handlePostBatch, P0.jsonResponse,
        List.length_take, Nat.min_comm]
      have ht : t.length ⊓ 99 + 1 = (t.length + 1) ⊓ 100 := by omega
      exact ⟨ht, by rw [ht], by rw [ht]⟩

/-- C1 witness: a one-entry batch against both variants. -/
theorem C1_batch_counts_witness :
    (W.fetch env0 0 backendOkAll
      (mkReq "POST" "/logs/batch" hdrs0 none none none {} (.arr [{}]))).1.status = 201 ∧
    (P0.fetch env0 0 backendOkAll
      (mkReq "POST" "/logs/batch" hdrs0 none none none {} (.arr [{}]))).1.status = 201 := by
  have h := C1_batch_counts env0 0 backendOkAll
    (mkReq "POST" "/logs/batch" hdrs0 none none none {} (.arr [{}])) [{}] rfl rfl rfl
  exact ⟨h.1.2.1, (h.2 (by simp)).2.1⟩

/-- Fulfilled outcomes are exactly the indices whose insert the backend
accepted. -/
theorem savedCount_eq_filter (backend : Backend) (n : Nat) :
    savedCount backend n
      = ((List.range n).filter (fun i => backend.batchOk i)).length := by
  unfold savedCount outcomes
  rw [List.filter_map, List.length_map]
  rfl

/-- Rejected outcomes are exactly the indices whose insert the backend
rejected. -/
theorem failedCount_eq_filter (backend : Backend) (n : Nat) :
    failedCount backend n
      = ((List.range n).filter (fun i => !backend.batchOk i)).length := by
  unfold failedCount outcomes
  rw [List.filter_map, List.length_map]
  rfl

/-- C2 counterexample: the claim asserts that a batch entry with an
absent `level` is rejected (not persisted, counted in `failed`); in the
code `insertSingleLog` performs no validation, so with a backend that
accepts the insert the entry is forwarded (with `level` absent from the
payload) and counted in `saved`: here `saved = 1`, `failed = 0`, and the
outbound insert of the level-less payload is made. -/
theorem C2_cex :
    (W.fetch env0 0 backendOkAll
      (mkReq "POST" "/logs/batch" hdrs0 none none none {}
        (.arr [{ message := some "hi" }]))).1.body = .json (.obj
          [("success", .bool true), ("total", .num 1),
           ("saved", .num 1), ("failed", .num 0)]) ∧
    (W.fetch env0 0 backendOkAll
      (mkReq "POST" "/logs/batch" hdrs0 none none none {}
        (.arr [{ message := some "hi" }]))).2 =
      [Outbound.post (W.insertUrl env0) true
        { session_id := "unknown", level := none, category := "system",
          message := some "hi", source := "Unknown", meta := .obj [],
          stack_trace := none, user_agent := some "UA/1.0",
          url := some "https://ref.example",
          expires_at := 30 * 24 * 60 * 60 * 1000 }] := by
  exact ⟨rfl, rfl⟩

/-- C2 (amended): batch entries undergo no worker-side validation: every
retained entry — whatever its `level` and `message` — produces exactly one
outbound insert of its normalized payload, independently of the outcomes of the other
entries, and the reported `saved`/`failed` counts are exactly
the numbers of retained indices whose own insert the backend accepted or
rejected. -/
theorem C2_batch_no_validation (env : Env) (now : Nat) (backend : Backend)
    (req : Request) (xs : List LogInput)
    (hm : req.method = "POST") (hp : req.path = "/logs/batch")
    (hb : req.batchBody = .arr xs) :
    ((W.fetch env now backend req).2 =
      (xs.take 100).map (fun log =>
        Outbound.post (W.insertUrl env) true (buildPayload now req.headers log)) ∧
     (W.fetch env now backend req).1.body = .json (.obj
       [("success", .bool true),
        ("total", .num (xs.take 100).length),
        ("saved", .num ((List.range (xs.take 100).length).filter
            (fun i => backend.batchOk i)).length),
        ("failed", .num ((List.range (xs.take 100).length).filter
            (fun i => !backend.batchOk i)).length)])) ∧
    (xs ≠ [] →
     ((P0.fetch env now backend req).2 =
       (xs.take 100).map (fun log =>
         Outbound.post (P0.insertUrl env) true (buildPayload now req.headers log)) ∧
      (P0.fetch env now backend req).1.body = .json (.obj
        [("success", .bool true),
         ("total", .num (xs.take 100).length),
         ("saved", .num ((List.range (xs.take 100).length).filter
             (fun i => backend.batchOk i)).length),
         ("failed", .num ((List.range (xs.take 100).length).filter
             (fun i => !backend.batchOk i)).length)]))) := by
  obtain ⟨m, p, h, s, l, o, lb, bb⟩ := req
  simp only at hm hp hb
  subst hm hp hb
  constructor
  · simp [W.fetch, W.handleCatch, W.handlePostBatch, W.jsonResponse,
      savedCount_eq_filter, failedCount_eq_filter]
  · intro hne
    cases xs with
    | nil => exact absurd rfl hne
    | cons a t =>
      simp [P0.fetch, P0.handleCatch, P0.handlePostBatch, P0.jsonResponse,
        savedCount_eq_filter, failedCount_eq_filter]

/-- C2 witness: one entry, rejecting backend — forwarded and counted as
failed in both variants. -/
theorem C2_batch_no_validation_witness :
    (W.fetch env0 0 backendFail
      (mkReq "POST" "/logs/batch" hdrs0 none none none {}
        (.arr [{ message := some "hi" }]))).1.body = .json (.obj
          [("success", .bool true), ("total", .num 1),
           ("saved", .num 0), ("failed", .num 1)]) ∧
    (P0.fetch env0 0 backendFail
      (mkReq "POST" "/logs/batch" hdrs0 none none none {}
        (.arr [{ message := some "hi" }]))).1.body = .json (.obj
          [("success", .bool true), ("total", .num 1),
           ("saved", .num 0), ("failed", .num 1)]) := by
  have h := C2_batch_no_validation env0 0 backendFail
    (mkReq "POST" "/logs/batch" hdrs0 none none none {}
      (.arr [{ message := some "hi" }])) [{ message := some "hi" }] rfl rfl rfl
  refine ⟨?_, ?_⟩
  · rw [h.1.2]
    rfl
  · rw [(h.2 (by simp)).2]
    rfl

/-- C4: a single-write request whose body has a falsy `level` or
`message` is answered with status 400, a body of the form
`{error: "Missing required fields..."}`, and no outbound call, in both
variants.  (The guard `!body.level || !body.message` also fires on empty
strings, which only widens the set of rejected requests.) -/
theorem C4_single_write_validation (env : Env) (now : Nat) (backend : Backend)
    (req : Request)
    (hm : req.method = "POST") (hp : req.path = "/logs")
    (hv : falsy req.logBody.level = true ∨ falsy req.logBody.message = true) :
    ((W.fetch env now backend req).1.status = 400 ∧
     (W.fetch env now backend req).1.body =
       .json (.obj [("error", .str "Missing required fields")]) ∧
     (W.fetch env now backend req).2 = []) ∧
    ((P0.fetch env now backend req).1.status = 400 ∧
     (P0.fetch env now backend req).1.body =
       .json (.obj [("error", .str "Missing required fields: level, message")]) ∧
     (P0.fetch env now backend req).2 = []) ∧
    "Missing required fields".toList.isPrefixOf
      "Missing required fields: level, message".toList = true := by
  obtain ⟨m, p, h, s, l, o, lb, bb⟩ := req
  simp only at hm hp hv
  subst hm hp
  have hguard : (falsy lb.level || falsy lb.message) = true := by
    rcases hv with hv | hv <;> simp [hv]
  refine ⟨?_, ?_, by decide⟩
  · simp [W.fetch, W.handleCatch, W.handlePostLog, W.jsonResponse, hguard]
  · simp [P0.fetch, P0.handleCatch, P0.handlePostLog, P0.jsonResponse, hguard]

/-- C4 witness: a body carrying only a `message`. -/
theorem C4_single_write_validation_witness :
    (W.fetch env0 0 backendOkAll
      (mkReq "POST" "/logs" hdrs0 none none none { message := some "hi" } .absent)).1.status
      = 400 ∧
    (P0.fetch env0 0 backendOkAll
      (mkReq "POST" "/logs" hdrs0 none none none { message := some "hi" } .absent)).2
      = [] := by
  have h := C4_single_write_validation env0 0 backendOkAll
    (mkReq "POST" "/logs" hdrs0 none none none { message := some "hi" } .absent)
    rfl rfl (Or.inl rfl)
  exact ⟨h.1.1, h.2.1.2.2⟩

/-- C8: when the backend answers a read or an accepted single write with
a non-success status, the handler raises a relay error that the top-level
catch turns into status 500 with body `{error: <message>}`, where the
message contains the status code of the backend — the HTTP status returned to
the caller is 500 regardless of the backend status.  Holds in both
variants. -/
theorem C8_backend_relay_500 (env : Env) (now : Nat) (backend : Backend)
    (req : Request) :
    (req.method = "GET" → req.path = "/logs" →
     (backend.onGet (W.getQuery env req)).ok = false →
     (W.fetch env now backend req).1.status = 500 ∧
     (W.fetch env now backend req).1.body = .json (.obj [("error", .str
        ("Supabase error: " ++ toString (backend.onGet (W.getQuery env req)).status))]) ∧
     ∃ pre post, (W.fetch env now backend req).1.body = .json (.obj [("error", .str
        (pre ++ toString (backend.onGet (W.getQuery env req)).status ++ post))])) ∧
    (req.method = "GET" → req.path = "/logs" →
     (backend.onGet (P0.getQuery env req)).ok = false →
     (P0.fetch env now backend req).1.status = 500 ∧
     (P0.fetch env now backend req).1.body = .json (.obj [("error", .str
        ("Supabase error: " ++ toString (backend.onGet (P0.getQuery env req)).status
          ++ " " ++ (backend.onGet (P0.getQuery env req)).text))]) ∧
     ∃ pre post, (P0.fetch env now backend req).1.body = .json (.obj [("error", .str
        (pre ++ toString (backend.onGet (P0.getQuery env req)).status ++ post))])) ∧
    (req.method = "POST" → req.path = "/logs" →
     falsy req.logBody.level = false → falsy req.logBody.message = false →
     (backend.onPost (buildPayload now req.headers req.logBody)).ok = false →
     (W.fetch env now backend req).1.status = 500 ∧
     (W.fetch env now backend req).1.body = .json (.obj [("error", .str
        ("Supabase insert error: "
          ++ toString (backend.onPost (buildPayload now req.headers req.logBody)).status
          ++ " " ++ (backend.onPost (buildPayload now req.headers req.logBody)).text))])) ∧
    (req.method = "POST" → req.path = "/logs" →
     falsy req.logBody.level = false → falsy req.logBody.message = false →
     (backend.onPost (buildPayload now req.headers req.logBody)).ok = false →
     (P0.fetch env now backend req).1.status = 500 ∧
     (P0.fetch env now backend req).1.body = .json (.obj [("error", .str
        ("Supabase insert error: "
          ++ toString (backend.onPost (buildPayload now req.headers req.logBody)).status
          ++ " " ++ (backend.onPost (buildPayload now req.headers req.logBody)).text))])) := by
  obtain ⟨m, p, h, s, l, o, lb, bb⟩ := req
  refine ⟨?_, ?_, ?_, ?_⟩
  · intro hm hp hok
    simp only at hm hp
    subst hm hp
    have hb : (W.fetch env now backend ⟨"GET", "/logs", h, s, l, o, lb, bb⟩).1.body
        = .json (.obj [("error", .str ("Supabase error: "
            ++ toString (backend.onGet
                (W.getQuery env ⟨"GET", "/logs", h, s, l, o, lb, bb⟩)).status))]) := by
      simp [W.fetch, W.handleGetLogs, W.handleCatch, W.jsonResponse, hok]
    refine ⟨?_, hb, "Supabase error: ", "", ?_⟩
    · simp [W.fetch, W.handleGetLogs, W.handleCatch, W.jsonResponse, hok]
    · rw [hb]
      simp
  · intro hm hp hok
    simp only at hm hp
    subst hm hp
    have hb : (P0.fetch env now backend ⟨"GET", "/logs", h, s, l, o, lb, bb⟩).1.body
        = .json (.obj [("error", .str ("Supabase error: "
            ++ toString (backend.onGet
                (P0.getQuery env ⟨"GET", "/logs", h, s, l, o, lb, bb⟩)).status
            ++ " " ++ (backend.onGet
                (P0.getQuery env ⟨"GET", "/logs", h, s, l, o, lb, bb⟩)).text))]) := by
      simp [P0.fetch, P0.handleGetLogs, P0.handleCatch, P0.jsonResponse, hok]
    refine ⟨?_, hb, "Supabase error: ",
      " " ++ (backend.onGet (P0.getQuery env ⟨"GET", "/logs", h, s, l, o, lb, bb⟩)).text, ?_⟩
    · simp [P0.fetch, P0.handleGetLogs, P0.handleCatch, P0.jsonResponse, hok]
    · rw [hb]
      simp [String.append_assoc]
  · intro hm hp hl hmsg hok
    simp only at hm hp hl hmsg
    subst hm hp
    constructor <;>
      simp [W.fetch, W.handlePostLog, W.handleCatch, W.jsonResponse, hl, hmsg, hok]
  · intro hm hp hl hmsg hok
    simp only at hm hp hl hmsg
    subst hm hp
    constructor <;>
      simp [P0.fetch, P0.handlePostLog, P0.handleCatch, P0.jsonResponse, hl, hmsg, hok]

/-- C8 witness: a backend that is down (status 503) on both paths. -/
theorem C8_backend_relay_500_witness :
    (W.fetch env0 0 backendFail
      (mkReq "GET" "/logs" hdrs0 none none none {} .absent)).1.status = 500 ∧
    (P0.fetch env0 0 backendFail
      (mkReq "GET" "/logs" hdrs0 none none none {} .absent)).1.status = 500 ∧
    (W.fetch env0 0 backendFail
      (mkReq "POST" "/logs" hdrs0 none none none
        { level := some "error", message := some "boom" } .absent)).1.status = 500 ∧
    (P0.fetch env0 0 backendFail
      (mkReq "POST" "/logs" hdrs0 none none none
        { level := some "error", message := some "boom" } .absent)).1.status = 500 := by
  have hg := C8_backend_relay_500 env0 0 backendFail
    (mkReq "GET" "/logs" hdrs0 none none none {} .absent)
  have hp := C8_backend_relay_500 env0 0 backendFail
    (mkReq "POST" "/logs" hdrs0 none none none
      { level := some "error", message := some "boom" } .absent)
  exact ⟨(hg.1 rfl rfl rfl).1, (hg.2.1 rfl rfl rfl).1,
    (hp.2.2.1 rfl rfl rfl rfl rfl).1, (hp.2.2.2 rfl rfl rfl rfl rfl).1⟩

/-- The top-level catch does not change the outbound calls. -/
theorem W_handleCatch_snd (x : Except String Resp × List Outbound) :
    (W.handleCatch x).2 = x.2 := by
  obtain ⟨e, calls⟩ := x
  cases e <;> rfl

/-- The top-level catch does not change the outbound calls. -/
theorem P0_handleCatch_snd (x : Except String Resp × List Outbound) :
    (P0.handleCatch x).2 = x.2 := by
  obtain ⟨e, calls⟩ := x
  cases e <;> rfl

/-- The read handler issues exactly one outbound read. -/
theorem W_handleGetLogs_snd (env : Env) (backend : Backend) (req : Request) :
    (W.handleGetLogs env backend req).2 = [Outbound.get (W.getQuery env req)] := by
  unfold W.handleGetLogs
  dsimp only
  split <;> rfl

/-- The read handler issues exactly one outbound read. -/
theorem P0_handleGetLogs_snd (env : Env) (backend : Backend) (req : Request) :
    (P0.handleGetLogs env backend req).2 = [Outbound.get (P0.getQuery env req)] := by
  unfold P0.handleGetLogs
  dsimp only
  split <;> rfl

/-- The single-write handler issues no call on validation failure and one
insert otherwise. -/
theorem W_handlePostLog_snd (env : Env) (now : Nat) (backend : Backend)
    (req : Request) :
    (W.handlePostLog env now backend req).2 =
      if falsy req.logBody.level || falsy req.logBody.message then []
      else [Outbound.post (W.insertUrl env) false
              (buildPayload now req.headers req.logBody)] := by
  unfold W.handlePostLog
  dsimp only
  split
  · rfl
  · split <;> rfl

/-- The single-write handler issues no call on validation failure and one
insert otherwise. -/
theorem P0_handlePostLog_snd (env : Env) (now : Nat) (backend : Backend)
    (req : Request) :
    (P0.handlePostLog env now backend req).2 =
      if falsy req.logBody.level || falsy req.logBody.message then []
      else [Outbound.post (P0.insertUrl env) false
              (buildPayload now req.headers req.logBody)] := by
  unfold P0.handlePostLog
  dsimp only
  split
  · rfl
  · split <;> rfl

/-- C9: every insert payload ever sent to the backend — by the single
write or by any batch entry, in either variant — carries the
server-computed expiry `now + 30 days` in milliseconds, and the payload
construction ignores any client-supplied `expires_at` entirely. -/
theorem C9_server_expiry (now : Nat) (hdrs : ReqHeaders) (log : LogInput)
    (v : Option String) :
    (buildPayload now hdrs log).expires_at = now + 30 * 24 * 60 * 60 * 1000 ∧
    buildPayload now hdrs { log with expires_at := v } = buildPayload now hdrs log ∧
    (∀ env backend req c, c ∈ (W.fetch env now backend req).2 →
      ∀ u mnl pl, c = Outbound.post u mnl pl →
        pl.expires_at = now + 30 * 24 * 60 * 60 * 1000) ∧
    (∀ env backend req c, c ∈ (P0.fetch env now backend req).2 →
      ∀ u mnl pl, c = Outbound.post u mnl pl →
        pl.expires_at = now + 30 * 24 * 60 * 60 * 1000) := by
  refine ⟨rfl, rfl, ?_, ?_⟩
  · intro env backend req c hc u mnl pl hceq
    subst hceq
    obtain ⟨m, p, h, s, l, o, lb, bb⟩ := req
    simp only [W.fetch] at hc
    split at hc
    · simp at hc
    split at hc
    · simp at hc
    split at hc
    · rw [W_handleCatch_snd, W_handleGetLogs_snd] at hc
      simp at hc
    split at hc
    · rw [W_handleCatch_snd, W_handlePostLog_snd] at hc
      split at hc
      · simp at hc
      · rw [List.mem_singleton] at hc
        injection hc with h1 h2 h3
        subst h3
        rfl
    split at hc
    · rw [W_handleCatch_snd] at hc
      cases bb with
      | absent => simp [W.handlePostBatch] at hc
      | nonArray => simp [W.handlePostBatch] at hc
      | arr xs =>
        unfold W.handlePostBatch at hc
        dsimp only at hc
        rw [List.mem_map] at hc
        obtain ⟨a, -, heq⟩ := hc
        injection heq with h1 h2 h3
        subst h3
        rfl
    · simp at hc
  · intro env backend req c hc u mnl pl hceq
    subst hceq
    obtain ⟨m, p, h, s, l, o, lb, bb⟩ := req
    simp only [P0.fetch] at hc
    split at hc
    · simp at hc
    split at hc
    · rw [P0_handleCatch_snd, P0_handleGetLogs_snd] at hc
      simp at hc
    split at hc
    · rw [P0_handleCatch_snd, P0_handlePostLog_snd] at hc
      split at hc
      · simp at hc
      · rw [List.mem_singleton] at hc
        injection hc with h1 h2 h3
        subst h3
        rfl
    split at hc
    · rw [P0_handleCatch_snd] at hc
      cases bb with
      | absent => simp [P0.handlePostBatch] at hc
      | nonArray => simp [P0.handlePostBatch] at hc
      | arr xs =>
        cases xs with
        | nil => simp [P0.handlePostBatch] at hc
        | cons a t =>
          unfold P0.handlePostBatch at hc
          simp only [List.isEmpty_cons, Bool.false_eq_true, if_false] at hc
          rw [List.mem_map] at hc
          obtain ⟨b, -, heq⟩ := hc
          injection heq with h1 h2 h3
          subst h3
          rfl
    split at hc
    · simp at hc
    · simp at hc

/-- C9 witness: a batch entry trying to set its own `expires_at` still
goes out with the server expiry. -/
theorem C9_server_expiry_witness :
    Outbound.post (W.insertUrl env0) true
        (buildPayload 1000 hdrs0 { expires_at := some "2999-01-01" })
      ∈ (W.fetch env0 1000 backendOkAll
          (mkReq "POST" "/logs/batch" hdrs0 none none none {}
            (.arr [{ expires_at := some "2999-01-01" }]))).2 ∧
    (buildPayload 1000 hdrs0 { expires_at := some "2999-01-01" }).expires_at
      = 1000 + 30 * 24 * 60 * 60 * 1000 := by
  have hm : Outbound.post (W.insertUrl env0) true
      (buildPayload 1000 hdrs0 { expires_at := some "2999-01-01" })
      ∈ (W.fetch env0 1000 backendOkAll
          (mkReq "POST" "/logs/batch" hdrs0 none none none {}
            (.arr [{ expires_at := some "2999-01-01" }]))).2 := by
    simp [W.fetch, W.handleCatch, W.handlePostBatch, mkReq]
  exact ⟨hm, (C9_server_expiry 1000 hdrs0 { expires_at := some "2999-01-01" } none).2.2.1
    env0 backendOkAll _ _ hm _ _ _ rfl⟩

/-- C5 counterexample: the claim asserts that the read query carries an
offset equal to the `offset` parameter; in `src/worker.js` the query
string contains no offset at all — here, with `offset=50`, the worker
query omits it while the `part_000` query carries `&offset=50`. -/
theorem C5_cex :
    (W.fetch env0 0 backendOkAll
      (mkReq "GET" "/logs" hdrs0 none none (some 50) {} .absent)).2 =
      [Outbound.get "https://example.supabase.co/rest/v1/console_logs?select=*&order=created_at.desc&limit=100"] ∧
    strContains
      "https://example.supabase.co/rest/v1/console_logs?select=*&order=created_at.desc&limit=100"
      "offset" = false ∧
    (P0.fetch env0 0 backendOkAll
      (mkReq "GET" "/logs" hdrs0 none none (some 50) {} .absent)).2 =
      [Outbound.get "https://example.supabase.co/rest/v1/console_logs?select=*&order=created_at.desc&limit=100&offset=50"] := by
  refine ⟨rfl, by decide, rfl⟩

/-- C5 (amended): every GET /logs request issues exactly one backend
read; the query selects all fields, orders by creation time descending,
and uses limit `min(parseInt(limit) || 100, 500)`; when `session` is
supplied non-empty the query appends an exact `session_id` equality
filter with the value percent-encoded; `src/unnamed/part_000`
additionally sets `offset` to `parseInt(offset) || 0`, while
`src/worker.js` emits no offset, ignoring the `offset` parameter. -/
theorem C5_read_query (env : Env) (now : Nat) (backend : Backend)
    (req : Request) (hm : req.method = "GET") (hp : req.path = "/logs") :
    ((W.fetch env now backend req).2 = [Outbound.get (W.getQuery env req)] ∧
     (P0.fetch env now backend req).2 = [Outbound.get (P0.getQuery env req)]) ∧
    (req.session = none →
      W.getQuery env req = env.SUPABASE_URL ++
        "/rest/v1/console_logs?select=*&order=created_at.desc&limit=" ++
        toString (effLimit req.limitParam) ∧
      P0.getQuery env req = env.SUPABASE_URL ++
        "/rest/v1/console_logs?select=*&order=created_at.desc&limit=" ++
        toString (effLimit req.limitParam) ++
        "&offset=" ++ toString (jsOrInt req.offsetParam 0)) ∧
    (∀ s, req.session = some s → s ≠ "" →
      W.getQuery env req = env.SUPABASE_URL ++
        "/rest/v1/console_logs?select=*&order=created_at.desc&limit=" ++
        toString (effLimit req.limitParam) ++
        "&session_id=eq." ++ encodeURIComponent s ∧
      P0.getQuery env req = env.SUPABASE_URL ++
        "/rest/v1/console_logs?select=*&order=created_at.desc&limit=" ++
        toString (effLimit req.limitParam) ++
        "&offset=" ++ toString (jsOrInt req.offsetParam 0) ++
        "&session_id=eq." ++ encodeURIComponent s) := by
  obtain ⟨m, p, h, s, l, o, lb, bb⟩ := req
  simp only at hm hp
  subst hm hp
  refine ⟨⟨?_, ?_⟩, ?_, ?_⟩
  · simp [W.fetch, W_handleCatch_snd, W_handleGetLogs_snd]
  · simp [P0.fetch, P0_handleCatch_snd, P0_handleGetLogs_snd]
  · intro hs
    simp only at hs
    subst hs
    exact ⟨rfl, rfl⟩
  · intro s' hs hne
    simp only at hs
    subst hs
    constructor <;> simp [W.getQuery, P0.getQuery, hne]

/-- C5 witness: session `"a b"` (percent-encoded to `a%20b`),
`limit=1000` capped to 500, `offset=7`. -/
theorem C5_read_query_witness :
    W.getQuery env0 (mkReq "GET" "/logs" hdrs0 (some "a b") (some 1000) (some 7) {} .absent)
      = "https://example.supabase.co/rest/v1/console_logs?select=*&order=created_at.desc&limit=500&session_id=eq.a%20b" ∧
    P0.getQuery env0 (mkReq "GET" "/logs" hdrs0 (some "a b") (some 1000) (some 7) {} .absent)
      = "https://example.supabase.co/rest/v1/console_logs?select=*&order=created_at.desc&limit=500&offset=7&session_id=eq.a%20b" := by
  have h := (C5_read_query env0 0 backendOkAll
    (mkReq "GET" "/logs" hdrs0 (some "a b") (some 1000) (some 7) {} .absent)
    rfl rfl).2.2 "a b" rfl (by decide)
  rw [h.1, h.2]
  exact ⟨rfl, rfl⟩

/-- C6 counterexample: the claim asserts that dispatch matches the exact
pair GET /health, everything else yielding 404; in `src/worker.js` the
`/health` case tests the path only, so POST /health is answered 200, not
404. -/
theorem C6_cex :
    (W.fetch env0 0 backendOkAll
      (mkReq "POST" "/health" hdrs0 none none none {} .absent)).1.status = 200 ∧
    ¬ (W.fetch env0 0 backendOkAll
      (mkReq "POST" "/health" hdrs0 none none none {} .absent)).1.status = 404 := by
  decide

/-- C6 (amended): in `src/unnamed/part_000` every non-OPTIONS request is
dispatched by exact method+path match against the four pairs, anything
else receiving the plain-text 404 with cross-origin headers; in
`src/worker.js` the three /logs routes are matched by exact method+path
but `/health` is matched by path alone (any non-OPTIONS method), with all
other requests receiving the same 404. -/
theorem C6_routing (env : Env) (now : Nat) (backend : Backend)
    (req : Request) (hm : req.method ≠ "OPTIONS") :
    (req.path = "/health" →
      (W.fetch env now backend req).1.status = 200 ∧
      (W.fetch env now backend req).1.body = .json (.obj
        [("status", .str "ok"), ("timestamp", .str (toString now))])) ∧
    (req.path ≠ "/health" →
     ¬ (req.method = "GET" ∧ req.path = "/logs") →
     ¬ (req.method = "POST" ∧ req.path = "/logs") →
     ¬ (req.method = "POST" ∧ req.path = "/logs/batch") →
      (W.fetch env now backend req).1 =
        ⟨404, W.CORS_HEADERS, .text "Not Found"⟩ ∧
      (W.fetch env now backend req).2 = []) ∧
    (¬ (req.method = "GET" ∧ req.path = "/logs") →
     ¬ (req.method = "POST" ∧ req.path = "/logs") →
     ¬ (req.method = "POST" ∧ req.path = "/logs/batch") →
     ¬ (req.method = "GET" ∧ req.path = "/health") →
      (P0.fetch env now backend req).1 =
        ⟨404, P0.CORS_HEADERS, .text "Not Found"⟩ ∧
      (P0.fetch env now backend req).2 = []) ∧
    (req.method = "GET" → req.path = "/health" →
      (P0.fetch env now backend req).1.status = 200 ∧
      (P0.fetch env now backend req).1.body = .json (.obj
        [("status", .str "ok"), ("timestamp", .str (toString now))]) ∧
      (P0.fetch env now backend req).2 = []) := by
  obtain ⟨m, p, h, s, l, o, lb, bb⟩ := req
  simp only at hm
  refine ⟨?_, ?_, ?_, ?_⟩
  · intro hp
    simp only at hp
    subst hp
    simp [W.fetch, W.jsonResponse, hm]
  · intro hp h1 h2 h3
    simp only at hp h1 h2 h3
    simp [W.fetch, hm, hp, h1, h2, h3]
  · intro h1 h2 h3 h4
    simp only at h1 h2 h3 h4
    simp [P0.fetch, hm, h1, h2, h3, h4]
  · intro hmg hph
    simp only at hmg hph
    subst hmg hph
    simp [P0.fetch, P0.jsonResponse]

/-- C6 witness: an undefined pair is 404 in both variants, PUT /health
reaches the health responder in `src/worker.js`, and GET /health reaches
it in `src/unnamed/part_000`. -/
theorem C6_routing_witness :
    (W.fetch env0 0 backendOkAll
      (mkReq "DELETE" "/nope" hdrs0 none none none {} .absent)).1.status = 404 ∧
    (P0.fetch env0 0 backendOkAll
      (mkReq "DELETE" "/nope" hdrs0 none none none {} .absent)).1.status = 404 ∧
    (W.fetch env0 0 backendOkAll
      (mkReq "PUT" "/health" hdrs0 none none none {} .absent)).1.status = 200 ∧
    (P0.fetch env0 0 backendOkAll
      (mkReq "GET" "/health" hdrs0 none none none {} .absent)).1.status = 200 ∧
    (P0.fetch env0 0 backendOkAll
      (mkReq "GET" "/health" hdrs0 none none none {} .absent)).1.body = .json (.obj
        [("status", .str "ok"), ("timestamp", .str (toString 0))]) := by
  have hd := C6_routing env0 0 backendOkAll
    (mkReq "DELETE" "/nope" hdrs0 none none none {} .absent) (by decide)
  have hh := C6_routing env0 0 backendOkAll
    (mkReq "PUT" "/health" hdrs0 none none none {} .absent) (by decide)
  have hg := C6_routing env0 0 backendOkAll
    (mkReq "GET" "/health" hdrs0 none none none {} .absent) (by decide)
  refine ⟨?_, ?_, (hh.1 rfl).1, (hg.2.2.2 rfl rfl).1, (hg.2.2.2 rfl rfl).2.1⟩
  · rw [(hd.2.1 (by decide) (by decide) (by decide) (by decide)).1]
  · rw [(hd.2.2.1 (by decide) (by decide) (by decide) (by decide)).1]

/-- Every response of the `src/worker.js` variant carries either exactly
the CORS header set (preflight, 404) or the CORS set plus a JSON
content type (every other path). -/
theorem W_fetch_headers (env : Env) (now : Nat) (backend : Backend)
    (req : Request) :
    (W.fetch env now backend req).1.headers = W.CORS_HEADERS ∨
    (W.fetch env now backend req).1.headers
      = ("Content-Type", "application/json") :: W.CORS_HEADERS := by
  unfold W.fetch
  split
  · exact Or.inl rfl
  split
  · exact Or.inr rfl
  split
  · refine Or.inr ?_
    unfold W.handleGetLogs
    dsimp only
    split <;> rfl
  split
  · refine Or.inr ?_
    unfold W.handlePostLog
    dsimp only
    split
    · rfl
    · split <;> rfl
  split
  · refine Or.inr ?_
    unfold W.handlePostBatch
    rcases req.batchBody with _ | _ | xs <;> rfl
  · exact Or.inl rfl

/-- Every response of the `src/unnamed/part_000` variant carries either
exactly its CORS header set or that set plus a JSON content type. -/
theorem P0_fetch_headers (env : Env) (now : Nat) (backend : Backend)
    (req : Request) :
    (P0.fetch env now backend req).1.headers = P0.CORS_HEADERS ∨
    (P0.fetch env now backend req).1.headers
      = ("Content-Type", "application/json") :: P0.CORS_HEADERS := by
  unfold P0.fetch
  split
  · exact Or.inl rfl
  split
  · refine Or.inr ?_
    unfold P0.handleGetLogs
    dsimp only
    split <;> rfl
  split
  · refine Or.inr ?_
    unfold P0.handlePostLog
    dsimp only
    split
    · rfl
    · split <;> rfl
  split
  · refine Or.inr ?_
    unfold P0.handlePostBatch
    rcases req.batchBody with _ | _ | xs
    · rfl
    · rfl
    · dsimp only
      split <;> rfl
  split
  · exact Or.inr rfl
  · exact Or.inl rfl

/-- C7 counterexample: the claim asserts every response carries a
preflight cache lifetime (`Access-Control-Max-Age`); the CORS header set
of `src/unnamed/part_000` has no such entry, so none of its responses
carry one — here its health response. -/
theorem C7_cex :
    ((P0.fetch env0 0 backendOkAll
        (mkReq "GET" "/health" hdrs0 none none none {} .absent)).1.headers.lookup
      "Access-Control-Max-Age") = none ∧
    ¬ ("Access-Control-Max-Age", "86400") ∈
      (P0.fetch env0 0 backendOkAll
        (mkReq "GET" "/health" hdrs0 none none none {} .absent)).1.headers := by
  decide

/-- C7 (amended): every response of either variant — success, validation
failure, 404 or internal error — carries the wildcard origin, the allowed
methods `GET, POST, OPTIONS` and the allowed headers
`Content-Type, Authorization`; the `src/worker.js` variant additionally
carries the preflight cache lifetime `Access-Control-Max-Age: 86400` on
every response, while the `src/unnamed/part_000` header set omits it. -/
theorem C7_cors_on_every_response (env : Env) (now : Nat) (backend : Backend)
    (req : Request) :
    (("Access-Control-Allow-Origin", "*")
        ∈ (W.fetch env now backend req).1.headers ∧
     ("Access-Control-Allow-Methods", "GET, POST, OPTIONS")
        ∈ (W.fetch env now backend req).1.headers ∧
     ("Access-Control-Allow-Headers", "Content-Type, Authorization")
        ∈ (W.fetch env now backend req).1.headers ∧
     ("Access-Control-Max-Age", "86400")
        ∈ (W.fetch env now backend req).1.headers) ∧
    (("Access-Control-Allow-Origin", "*")
        ∈ (P0.fetch env now backend req).1.headers ∧
     ("Access-Control-Allow-Methods", "GET, POST, OPTIONS")
        ∈ (P0.fetch env now backend req).1.headers ∧
     ("Access-Control-Allow-Headers", "Content-Type, Authorization")
        ∈ (P0.fetch env now backend req).1.headers) := by
  constructor
  · rcases W_fetch_headers env now backend req with hw | hw <;> rw [hw] <;>
      refine ⟨by decide, by decide, by decide, by decide⟩
  · rcases P0_fetch_headers env now backend req with hp | hp <;> rw [hp] <;>
      refine ⟨by decide, by decide, by decide⟩

/-- C10: a `limit` parameter that is absent or unparsable (`none`) or
parses to 0 yields effective limit 100; the 500 cap is an upper bound via
`min` only, so a negative parsed value passes through unchanged and is
forwarded in the backend query of both variants verbatim. -/
theorem C10_limit_fallback :
    effLimit none = 100 ∧
    effLimit (some 0) = 100 ∧
    (∀ v : Int, v < 0 → effLimit (some v) = v) ∧
    (∀ v : Int, v ≠ 0 → effLimit (some v) = min v 500) ∧
    (∀ (env : Env) (hdrs : ReqHeaders) (v : Int), v < 0 →
      W.getQuery env (mkReq "GET" "/logs" hdrs none (some v) none {} .absent)
        = env.SUPABASE_URL ++
          "/rest/v1/console_logs?select=*&order=created_at.desc&limit=" ++ toString v ∧
      P0.getQuery env (mkReq "GET" "/logs" hdrs none (some v) none {} .absent)
        = env.SUPABASE_URL ++
          "/rest/v1/console_logs?select=*&order=created_at.desc&limit=" ++ toString v
          ++ "&offset=0") := by
  have hneg : ∀ v : Int, v < 0 → effLimit (some v) = v := by
    intro v hv
    unfold effLimit jsOrInt
    dsimp only
    rw [if_neg (by omega : ¬ v = 0)]
    exact min_eq_left (by omega)
  refine ⟨by decide, by decide, hneg, ?_, ?_⟩
  · intro v hv
    unfold effLimit jsOrInt
    dsimp only
    rw [if_neg hv]
  · intro env hdrs v hv
    constructor
    · unfold W.getQuery
      simp only [mkReq]
      rw [hneg v hv]
    · unfold P0.getQuery
      simp only [mkReq]
      rw [hneg v hv, String.append_assoc]
      rfl

/-- C10 witness: `limit=-5` is forwarded unchanged. -/
theorem C10_limit_fallback_witness :
    effLimit (some (-5)) = -5 ∧
    W.getQuery env0 (mkReq "GET" "/logs" hdrs0 none (some (-5)) none {} .absent)
      = "https://example.supabase.co/rest/v1/console_logs?select=*&order=created_at.desc&limit=-5" := by
  refine ⟨C10_limit_fallback.2.2.1 (-5) (by decide), ?_⟩
  rw [(C10_limit_fallback.2.2.2.2 env0 hdrs0 (-5) (by decide)).1]
  rfl

/-- C3 counterexample: the claim asserts that an empty `logs` array is
answered with status 400 and no outbound call; in `src/worker.js` the
empty array passes the guard (`[]` is a truthy array) and the response is
201 with `total = 0`. -/
theorem C3_cex :
    (W.fetch env0 0 backendOkAll
      (mkReq "POST" "/logs/batch" hdrs0 none none none {} (.arr []))).1.status = 201 ∧
    ¬ (W.fetch env0 0 backendOkAll
      (mkReq "POST" "/logs/batch" hdrs0 none none none {} (.arr []))).1.status = 400 := by
  decide

/-- C3 (amended): a batch body whose `logs` field is absent or not an
array is answered with status 400 and no outbound call in both variants;
an empty array is also rejected that way in `src/unnamed/part_000`, while
`src/worker.js` accepts it with status 201, `total = 0` and still no
outbound call. -/
theorem C3_batch_invalid_logs (env : Env) (now : Nat) (backend : Backend)
    (hdrs : ReqHeaders) (sess : Option String) (lim off : Option Int)
    (lb : LogInput) :
    ((W.fetch env now backend
        (mkReq "POST" "/logs/batch" hdrs sess lim off lb .absent)).1.status = 400 ∧
     (W.fetch env now backend
        (mkReq "POST" "/logs/batch" hdrs sess lim off lb .absent)).2 = [] ∧
     (W.fetch env now backend
        (mkReq "POST" "/logs/batch" hdrs sess lim off lb .nonArray)).1.status = 400 ∧
     (W.fetch env now backend
        (mkReq "POST" "/logs/batch" hdrs sess lim off lb .nonArray)).2 = []) ∧
    ((P0.fetch env now backend
        (mkReq "POST" "/logs/batch" hdrs sess lim off lb .absent)).1.status = 400 ∧
     (P0.fetch env now backend
        (mkReq "POST" "/logs/batch" hdrs sess lim off lb .absent)).2 = [] ∧
     (P0.fetch env now backend
        (mkReq "POST" "/logs/batch" hdrs sess lim off lb .nonArray)).1.status = 400 ∧
     (P0.fetch env now backend
        (mkReq "POST" "/logs/batch" hdrs sess lim off lb .nonArray)).2 = [] ∧
     (P0.fetch env now backend
        (mkReq "POST" "/logs/batch" hdrs sess lim off lb (.arr []))).1.status = 400 ∧
     (P0.fetch env now backend
        (mkReq "POST" "/logs/batch" hdrs sess lim off lb (.arr []))).2 = []) ∧
    ((W.fetch env now backend
        (mkReq "POST" "/logs/batch" hdrs sess lim off lb (.arr []))).1.status = 201 ∧
     (W.fetch env now backend
        (mkReq "POST" "/logs/batch" hdrs sess lim off lb (.arr []))).1.body = .json (.obj
          [("success", .bool true), ("total", .num 0),
           ("saved", .num 0), ("failed", .num 0)]) ∧
     (W.fetch env now backend
        (mkReq "POST" "/logs/batch" hdrs sess lim off lb (.arr []))).2 = []) := by
  refine ⟨⟨?_, ?_, ?_, ?_⟩, ⟨?_, ?_, ?_, ?_, ?_, ?_⟩, ⟨?_, ?_, ?_⟩⟩ <;>
    simp [W.fetch, P0.fetch, W.handleCatch, P0.handleCatch, W.handlePostBatch,
      P0.handlePostBatch, W.jsonResponse, P0.jsonResponse, mkReq,
      savedCount, failedCount, outcomes]
